import Mathlib

/-!
Shallow embedding of the grade/credit computation and record-management
logic of `server.py` (a Flask application for graduate-student academic
records), together with theorems settling the specification claims.

Python integers are arbitrary precision, so `int` values are modelled as
`ℤ`; the numeric values flowing through the grade computations are finite
decimals, modelled as `ℚ`.  A value read from a database column or a form
field can be absent (`None` / missing key), a number, or a string; such
loosely-typed values are modelled by `PyVal` resp. `Option String`.
Operations of the Python runtime that can raise (`int(v)`, `float(v)`)
are modelled as `Option`-returning functions.
-/

namespace StudentPortal

/-- Characters stripped by Python's `str.strip()` (ASCII whitespace). -/
def isPySpace (c : Char) : Bool :=
  c = ' ' || c = '\t' || c = '\n' || c = '\r' || c = Char.ofNat 11 || c = Char.ofNat 12

/-- `str.strip()`: drop leading and trailing whitespace. -/
def trim (l : List Char) : List Char :=
  ((l.dropWhile isPySpace).reverse.dropWhile isPySpace).reverse

/-- Numeric value of a list of decimal digit characters. -/
def digitsToNat (cs : List Char) : ℕ :=
  cs.foldl (fun a c => 10 * a + (c.toNat - 48)) 0

/-- A nonempty all-digit run parses to its value; anything else fails.
(Python's optional underscore digit separators are not modelled.) -/
def parseDigits (cs : List Char) : Option ℕ :=
  if cs ≠ [] ∧ cs.all Char.isDigit then some (digitsToNat cs) else none

/-- Model of Python's `int(str)`: strip whitespace, optional sign,
then a nonempty run of decimal digits; otherwise `ValueError` (`none`). -/
def parsePyInt (s : String) : Option ℤ :=
  match trim s.data with
  | '-' :: rest => (parseDigits rest).map fun n => -(n : ℤ)
  | '+' :: rest => (parseDigits rest).map fun n => (n : ℤ)
  | cs => (parseDigits cs).map fun n => (n : ℤ)

/-- A loosely-typed value as read from a form field or a database column. -/
inductive PyVal where
  | none
  | int (n : ℤ)
  | str (s : String)
deriving DecidableEq, Repr

/-- `int(v)` on a loosely-typed value; `none` models the raised exception:
`int(None)` raises `TypeError`, a non-numeric string raises `ValueError`. -/
def pyInt (v : PyVal) : Option ℤ :=
  match v with
  | .none => Option.none
  | .int n => some n
  | .str s => parsePyInt s

/-- `safe_int(v, default=0)` from `server.py` lines 101-106:
`int(v)`, or the default `0` on any exception. -/
def safe_int (v : PyVal) : ℤ :=
  (pyInt v).getD 0

/-- `safe_int(request.form.get(key, 0))`: a missing form field yields the
integer default `0`; a present field is a string parsed by `int`,
any parse failure again yielding `0`. -/
def safe_int_field (v : Option String) : ℤ :=
  match v with
  | Option.none => 0
  | some s => (parsePyInt s).getD 0

/-- Whether a form field holds a value that `int` accepts. -/
def numericField (v : Option String) : Bool :=
  match v with
  | Option.none => false
  | some s => (parsePyInt s).isSome

/-- Exponent part of a float literal: optional sign, nonempty digits. -/
def parseExpPart (cs : List Char) : Option ℤ :=
  match cs with
  | '-' :: rest => (parseDigits rest).map fun n => -(n : ℤ)
  | '+' :: rest => (parseDigits rest).map fun n => (n : ℤ)
  | rest => (parseDigits rest).map fun n => (n : ℤ)

/-- Unsigned body of a Python float literal: digits, an optional point
with further digits (at least one digit overall), optional exponent. -/
def parseFloatBody (cs : List Char) : Option ℚ :=
  let intPart := cs.takeWhile Char.isDigit
  let rest := cs.dropWhile Char.isDigit
  match rest with
  | [] => if intPart = [] then none else some ((digitsToNat intPart : ℚ))
  | '.' :: r2 =>
    let frac := r2.takeWhile Char.isDigit
    let rest2 := r2.dropWhile Char.isDigit
    if intPart = [] ∧ frac = [] then none
    else
      let mant : ℚ := (digitsToNat (intPart ++ frac) : ℚ) / (10 : ℚ) ^ frac.length
      match rest2 with
      | [] => some mant
      | 'e' :: r3 => (parseExpPart r3).map fun e => mant * (10 : ℚ) ^ e
      | 'E' :: r3 => (parseExpPart r3).map fun e => mant * (10 : ℚ) ^ e
      | _ => none
  | 'e' :: r3 =>
    if intPart = [] then none
    else (parseExpPart r3).map fun e => (digitsToNat intPart : ℚ) * (10 : ℚ) ^ e
  | 'E' :: r3 =>
    if intPart = [] then none
    else (parseExpPart r3).map fun e => (digitsToNat intPart : ℚ) * (10 : ℚ) ^ e
  | _ => none

/-- Model of Python's `float(str)` restricted to finite decimal/scientific
numerals (`"inf"`, `"nan"` and underscore separators are not modelled:
the application never stores such values). -/
def parsePyFloat (s : String) : Option ℚ :=
  match trim s.data with
  | '-' :: rest => (parseFloatBody rest).map fun q => -q
  | '+' :: rest => parseFloatBody rest
  | cs => parseFloatBody cs

/-- `float(v)` on a loosely-typed value; `float(None)` raises. -/
def pyFloat (v : PyVal) : Option ℚ :=
  match v with
  | .none => Option.none
  | .int n => some ((n : ℚ))
  | .str s => parsePyFloat s

/-- Python truthiness coercion `v or 0`: `None`, `0` and `""` are falsy. -/
def pyOrZero (v : PyVal) : PyVal :=
  match v with
  | .none => .int 0
  | .int n => if n = 0 then .int 0 else .int n
  | .str s => if s = "" then .int 0 else .str s

/-- Round a rational to the nearest integer, ties to even
(the behaviour of Python's builtin `round`). -/
def roundHalfEven (x : ℚ) : ℤ :=
  let f := ⌊x⌋
  let r := x - (f : ℚ)
  if r < 1 / 2 then f
  else if 1 / 2 < r then f + 1
  else if f % 2 = 0 then f else f + 1

/-- `round(x, 2)`: round to two decimal places, ties to even. -/
def round2 (x : ℚ) : ℚ :=
  (roundHalfEven (100 * x) : ℚ) / 100

/-- The per-course values written by the `POST` branch of
`admin_student_edit` (`server.py` lines 899-913). -/
structure CourseUpdate where
  coursework_breakdown : List ℤ
  coursework_total : ℤ
  final_exam : ℤ
  grade : ℤ
deriving DecidableEq, Repr

/-- `server.py` lines 903-910: each coursework form field is coerced with
`safe_int`, the breakdown is summed into `coursework_total`, the final-exam
field is coerced with `safe_int`, and `grade = coursework_total + final`.
(The route reads exactly the five fields `cw1_..cw5_`; the list of field
values is kept general here.) -/
def adminEditCourse (cw : List (Option String)) (finField : Option String) :
    CourseUpdate :=
  let breakdown := cw.map safe_int_field
  let cw_tot := breakdown.sum
  let fin := safe_int_field finField
  { coursework_breakdown := breakdown
    coursework_total := cw_tot
    final_exam := fin
    grade := cw_tot + fin }

/-- `server.py` line 915: `avg = round(total_g / count_c, 2) if count_c
else 0` — the arithmetic mean of the per-course grades rounded to two
decimal places, `0` for an empty course list. -/
def compute_overall_average (grades : List ℚ) : ℚ :=
  if grades.length = 0 then 0 else round2 (grades.sum / (grades.length : ℚ))

/-- `server.py` lines 435-453 (`student_portal`): each stored breakdown
mark is passed through `float`, a failure being replaced by `0`. -/
def cleanMark (v : PyVal) : ℚ :=
  (pyFloat v).getD 0

/-- A row of the `courses` table.  `semester` and the numeric columns are
loosely typed as stored (SQLite TEXT/INTEGER columns can hold `NULL` or
text); only the columns the claims touch are carried. -/
structure CourseRow where
  id : ℤ
  student_id : ℤ
  course_name : String
  semester : Option String
  credits : PyVal
  grade : PyVal
deriving DecidableEq, Repr

/-- `server.py` line 724 (`courses` route): the credit total shown on the
courses page, `sum(safe_int(c["credits"]) for c in processed)`. -/
def total_credits (courses : List CourseRow) : ℤ :=
  (courses.map fun c => safe_int c.credits).sum

/-- Whether `needle` occurs as a contiguous substring of `hay`
(Python's `in` on strings). -/
def containsSub (needle : List Char) : List Char → Bool
  | [] => needle.isEmpty
  | c :: t => needle.isPrefixOf (c :: t) || containsSub needle t

/-- The first-semester token matched in `admin_student_print`. -/
def tok1 : List Char := "أول".data

/-- The second-semester token matched in `admin_student_print`. -/
def tok2 : List Char := "ثاني".data

/-- The accumulators of the course loop in `admin_student_print`
(`sum1, cnt1, sum2, cnt2, creds`). -/
structure PrintAcc where
  sum1 : ℚ
  cnt1 : ℕ
  sum2 : ℚ
  cnt2 : ℕ
  creds : ℤ
deriving DecidableEq, Repr

/-- One iteration of the course loop in `admin_student_print` (`server.py`
lines 1002-1012).  Inside one `try`: `float(grade)` is evaluated first —
if it raises, nothing is accumulated; then `int(credits or 0)` — if that
raises, neither the credits nor the semester sums are updated; otherwise
the credits are added and the grade is accumulated into the
first-semester partition when the label contains `tok1`, else into the
second partition when it contains `tok2`. -/
def printStep (acc : PrintAcc) (co : CourseRow) : PrintAcc :=
  match pyFloat co.grade with
  | Option.none => acc
  | some gr =>
    match pyInt (pyOrZero co.credits) with
    | Option.none => acc
    | some cr =>
      let acc1 : PrintAcc := { acc with creds := acc.creds + cr }
      if containsSub tok1 (co.semester.getD "").data then
        { acc1 with sum1 := acc1.sum1 + gr, cnt1 := acc1.cnt1 + 1 }
      else if containsSub tok2 (co.semester.getD "").data then
        { acc1 with sum2 := acc1.sum2 + gr, cnt2 := acc1.cnt2 + 1 }
      else acc1

/-- The full course loop of `admin_student_print`. -/
def printFold (courses : List CourseRow) : PrintAcc :=
  courses.foldl printStep ⟨0, 0, 0, 0, 0⟩

/-- A semester-average cell of the printed transcript: either a rounded
numeric average or the textual sentinel `'---'`. -/
inductive AvgOut where
  | val (q : ℚ)
  | sentinel
deriving DecidableEq, Repr

/-- `avg_sem1 = round(sum1 / cnt1, 2) if cnt1 else '---'`
(`server.py` line 1019). -/
def avg_sem1 (courses : List CourseRow) : AvgOut :=
  let a := printFold courses
  if a.cnt1 ≠ 0 then .val (round2 (a.sum1 / (a.cnt1 : ℚ))) else .sentinel

/-- `avg_sem2 = round(sum2 / cnt2, 2) if cnt2 else '---'`
(`server.py` line 1020). -/
def avg_sem2 (courses : List CourseRow) : AvgOut :=
  let a := printFold courses
  if a.cnt2 ≠ 0 then .val (round2 (a.sum2 / (a.cnt2 : ℚ))) else .sentinel

/-- `course_credits_sum = creds` (`server.py` line 1021). -/
def course_credits_sum (courses : List CourseRow) : ℤ :=
  (printFold courses).creds

/-- A course row is processed by the print loop (rather than skipped by
its `except`) when both `float(grade)` and `int(credits or 0)` succeed. -/
def printIncluded (co : CourseRow) : Bool :=
  (pyFloat co.grade).isSome && (pyInt (pyOrZero co.credits)).isSome

/-- Membership in the first-semester partition of the print loop. -/
def inFirstSem (co : CourseRow) : Bool :=
  printIncluded co && containsSub tok1 (co.semester.getD "").data

/-- Membership in the second-semester partition of the print loop. -/
def inSecondSem (co : CourseRow) : Bool :=
  printIncluded co && !containsSub tok1 (co.semester.getD "").data &&
    containsSub tok2 (co.semester.getD "").data

/-- The partition criterion of the specification: the semester label
contains the first-semester token. -/
def firstSemMatch (co : CourseRow) : Bool :=
  containsSub tok1 (co.semester.getD "").data

/-- The partition criterion of the specification: the semester label does
not contain the first-semester token but contains the second-semester
token (the `elif` makes the two partitions disjoint). -/
def secondSemMatch (co : CourseRow) : Bool :=
  !containsSub tok1 (co.semester.getD "").data &&
    containsSub tok2 (co.semester.getD "").data

/-- The numeric grade of a course row that the print loop accumulates. -/
def gradeOf (co : CourseRow) : ℚ :=
  (pyFloat co.grade).getD 0

/-- The credit contribution of a course row in the print loop. -/
def credOf (co : CourseRow) : ℤ :=
  (pyInt (pyOrZero co.credits)).getD 0

/-- Split a string at every comma, Python's `s.split(',')`:
the empty string yields one empty segment. -/
def splitComma : List Char → List (List Char)
  | [] => [[]]
  | c :: rest =>
    if c = ',' then [] :: splitComma rest
    else
      match splitComma rest with
      | [] => [[c]]
      | s :: ss => (c :: s) :: ss

/-- Parsing a stored committee-members string (`server.py` lines 803 and
810): split on commas, strip each segment, drop blank segments —
`[m.strip() for m in s.split(',') if m.strip()]`. -/
def parseMembers (s : List Char) : List (List Char) :=
  ((splitComma s).map trim).filter fun m => !m.isEmpty

/-- Serializing a committee-member list for storage: `", ".join(mems)`
(`server.py` lines 807 and 817). -/
def serializeMembers (ms : List (List Char)) : List Char :=
  List.intercalate [',', ' '] ms

/-- A row of the `plan` table (committee plan; one-to-one per student).
Member names are character lists, matching the split/strip model. -/
structure PlanRow where
  student_id : ℤ
  committee_name : Option (List Char)
  supervisor : Option (List Char)
  members : Option (List Char)
  discussion_date : Option (List Char)
  notes : Option (List Char)
deriving DecidableEq, Repr

/-- The `delete_member` branch of the `plan` route (`server.py` lines
801-807): parse the stored members string (`NULL` read as `""`), remove
the first occurrence of the requested name if present, then
`INSERT OR REPLACE` a row that names only the `student_id` and `members`
columns — every other column of the replaced row reverts to `NULL`.
(When no plan row exists the handler raises on `curp["members"]`; the
claim presupposes a stored plan, so the row is taken as given.) -/
def planDeleteMember (sid : ℤ) (row : PlanRow) (mdel : Option (List Char)) :
    PlanRow :=
  let mems := parseMembers (row.members.getD [])
  let mems1 := match mdel with
    | Option.none => mems
    | some m => if m ∈ mems then mems.erase m else mems
  { student_id := sid
    committee_name := Option.none
    supervisor := Option.none
    members := some (serializeMembers mems1)
    discussion_date := Option.none
    notes := Option.none }

/-- A row of the `students` table (columns the claims touch; `student_id`
is the external human-readable code — the `UNIQUE` column). -/
structure StudentRow where
  id : ℤ
  full_name : String
  student_id : String
  email : Option String
  image_filename : Option String
deriving DecidableEq, Repr

/-- The fields submitted at the Identity step of the intake wizard. -/
structure InfoForm where
  full_name : String
  student_id : String
  email : Option String
deriving DecidableEq, Repr

/-- Outcome of a `POST /info` submission: re-prompt on missing mandatory
fields, re-prompt on a duplicate external code (`sqlite3.IntegrityError`),
or advance to the Admission step. -/
inductive InfoOutcome where
  | invalid
  | conflict
  | advance
deriving DecidableEq, Repr

/-- The `POST` branch of the `info` route (`server.py` lines 570-625).
Returns the outcome together with the students table and the session's
current-student key after the request.  With a current key set, the row is
updated in place (`IntegrityError` when another row holds the submitted
code); with no current key a new row is inserted (`IntegrityError` when
any row holds the code), and the session key becomes the fresh row id.
On `IntegrityError` the transaction leaves the table unchanged and the
handler redirects back to `info` without touching the session. -/
def infoPost (db : List StudentRow) (sess : Option ℤ) (form : InfoForm)
    (imageName : Option String) :
    InfoOutcome × List StudentRow × Option ℤ :=
  let fullName := String.mk (trim form.full_name.data)
  let code := String.mk (trim form.student_id.data)
  if fullName = "" ∨ code = "" then (.invalid, db, sess)
  else
    match sess with
    | some sid =>
      if db.any (fun s => s.id ≠ sid ∧ s.student_id = code) then
        (.conflict, db, sess)
      else
        let db1 := db.map fun s =>
          if s.id = sid then
            { s with
              full_name := fullName
              student_id := code
              email := form.email
              image_filename := (match imageName with
                | some f => some f
                | Option.none => s.image_filename) }
          else s
        (.advance, db1, some sid)
    | Option.none =>
      if db.any (fun s => s.student_id = code) then (.conflict, db, sess)
      else
        let newId := 1 + (db.map (·.id)).foldr max 0
        (.advance,
          { id := newId, full_name := fullName, student_id := code,
            email := form.email, image_filename := imageName } :: db,
          some newId)

/-- The `GET` branch of the `info` route (`server.py` lines 627-635): the
data rendered into the form is the stored row of the session's current
student, or nothing (a blank form) when no current student is set. -/
def infoGet (db : List StudentRow) (sess : Option ℤ) : Option StudentRow :=
  sess.bind fun sid => db.find? fun s => s.id = sid

/-- A row of the `admission` table. -/
structure AdmissionRow where
  student_id : ℤ
  type : Option String
  year : Option String
  avg : Option String
  notes : Option String
  graduation_date : Option String
deriving DecidableEq, Repr

/-- `INSERT OR REPLACE` into a table keyed by `key`. -/
def upsertBy {α : Type} (key : α → ℤ) (tbl : List α) (row : α) : List α :=
  row :: tbl.filter fun r => key r ≠ key row

/-- Row lookup by key. -/
def lookupBy {α : Type} (key : α → ℤ) (tbl : List α) (k : ℤ) : Option α :=
  tbl.find? fun r => key r = k

/-- The admission upsert at the end of the `POST` branch of
`admin_student_edit` (`server.py` lines 916-919): the replacement row
names only `student_id, type, year, avg, notes`, so the
`graduation_date` column reverts to its `NULL` default.  (`avgStr` is the
textual rendering `str(avg)` of the computed overall average.) -/
def adminEditSaveAdmission (tbl : List AdmissionRow) (sid : ℤ)
    (typ year notes : Option String) (avgStr : String) : List AdmissionRow :=
  upsertBy (·.student_id) tbl
    { student_id := sid, type := typ, year := year, avg := some avgStr,
      notes := notes, graduation_date := Option.none }

/-- A row of the `research` table (columns the claims touch). -/
structure ResearchRow where
  student_id : ℤ
  research_filename : Option String
deriving DecidableEq, Repr

/-- A row of the `competency` table (columns the claims touch). -/
structure CompetencyRow where
  student_id : ℤ
  exam_result : Option String
deriving DecidableEq, Repr

/-- The six tables of the students database. -/
structure StudentsDB where
  students : List StudentRow
  admission : List AdmissionRow
  courses : List CourseRow
  research : List ResearchRow
  competency : List CompetencyRow
  plan : List PlanRow
deriving Repr

/-- `admin_student_delete` (`server.py` lines 940-967): best-effort
removal of the portrait and research files — each `os.remove` is wrapped
in `try/except: pass`, and Python truthiness skips an empty filename —
followed by unconditional deletion of the student's rows from all six
tables.  `removeOk` models which file removals succeed on the file
system; a failed removal leaves the file in place and nothing else. -/
def admin_student_delete (db : StudentsDB) (fs : List String)
    (removeOk : String → Bool) (sid : ℤ) : StudentsDB × List String :=
  let fs1 := match (db.students.find? fun s => s.id = sid).bind
      (·.image_filename) with
    | some f => if f ≠ "" ∧ removeOk f then fs.erase f else fs
    | Option.none => fs
  let fs2 := match (db.research.find? fun r => r.student_id = sid).bind
      (·.research_filename) with
    | some f => if f ≠ "" ∧ removeOk f then fs1.erase f else fs1
    | Option.none => fs1
  ({ students := db.students.filter fun r => r.id ≠ sid
     admission := db.admission.filter fun r => r.student_id ≠ sid
     courses := db.courses.filter fun r => r.student_id ≠ sid
     research := db.research.filter fun r => r.student_id ≠ sid
     competency := db.competency.filter fun r => r.student_id ≠ sid
     plan := db.plan.filter fun r => r.student_id ≠ sid },
   fs2)

/-- A concrete stored committee plan, used for evaluating the
remove-member operation. -/
def rowC9 : PlanRow :=
  { student_id := 1
    committee_name := some "Committee".data
    supervisor := some "Dr Huda".data
    members := some "Ali, Omar".data
    discussion_date := some "2026-01-01".data
    notes := some "ok".data }

/-- A concrete course row whose stored grade text is not numeric. -/
def cexCourse : CourseRow :=
  { id := 1, student_id := 1, course_name := "AI", semester := Option.none,
    credits := .int 3, grade := .str "x" }

/-- A concrete first-semester course row with grade 80. -/
def cw1Course : CourseRow :=
  { id := 1, student_id := 1, course_name := "c1",
    semester := some "الفصل الأول", credits := .int 3, grade := .int 80 }

/-- A concrete second-semester course row with grade 60. -/
def cw2Course : CourseRow :=
  { id := 2, student_id := 1, course_name := "c2",
    semester := some "الفصل الثاني", credits := .int 2, grade := .int 60 }

/-- A concrete students table holding one student with external code
`A100`. -/
def dbC7 : List StudentRow :=
  [{ id := 1, full_name := "Ali", student_id := "A100",
     email := Option.none, image_filename := Option.none }]

/-- A concrete Identity-step submission whose external code duplicates
the stored student's code. -/
def formC7 : InfoForm :=
  { full_name := "Omar", student_id := "A100", email := Option.none }

/-!  ## Theorems settling the claims  -/

/-- C1: for every breakdown of coursework scores (each entry coerced via
parse-or-zero) and every final-exam score, `admin_student_edit` stores
`coursework_total` equal to the sum of the coerced entries and `grade`
equal to that `coursework_total` plus the coerced final-exam score. -/
theorem c1_course_grade (cw : List (Option String)) (fin : Option String) :
    (adminEditCourse cw fin).coursework_total = (cw.map safe_int_field).sum ∧
    (adminEditCourse cw fin).grade =
      (adminEditCourse cw fin).coursework_total + safe_int_field fin :=
  ⟨rfl, rfl⟩

/-- C2: the numeric coercions never raise (they are total functions), and
a non-numeric or missing entry is coerced to `0` and contributes exactly
`0`: to the coursework total, to the grade (final-exam field), to the
credit total, and to a portal breakdown mark. -/
theorem c2_parse_or_zero :
    (∀ v : Option String, numericField v = false → safe_int_field v = 0) ∧
    (∀ (pre post : List (Option String)) (v fin : Option String),
      numericField v = false →
      (adminEditCourse (pre ++ v :: post) fin).coursework_total =
        (adminEditCourse (pre ++ post) fin).coursework_total) ∧
    (∀ (cw : List (Option String)) (fin : Option String),
      numericField fin = false →
      (adminEditCourse cw fin).grade =
        (adminEditCourse cw fin).coursework_total) ∧
    (∀ v : PyVal, pyInt v = Option.none → safe_int v = 0) ∧
    (∀ (pre post : List CourseRow) (co : CourseRow),
      pyInt co.credits = Option.none →
      total_credits (pre ++ co :: post) = total_credits (pre ++ post)) ∧
    (∀ v : PyVal, pyFloat v = Option.none → cleanMark v = 0) := by
  have hfield : ∀ v : Option String, numericField v = false → safe_int_field v = 0 := by
    intro v hv
    match v with
    | Option.none => rfl
    | some s =>
      simp only [numericField] at hv
      cases h : parsePyInt s with
      | none => simp [safe_int_field, h]
      | some n => rw [h] at hv; simp at hv
  refine ⟨hfield, ?_, ?_, ?_, ?_, ?_⟩
  · intro pre post v fin hv
    simp [adminEditCourse, hfield v hv]
  · intro cw fin hf
    simp [adminEditCourse, hfield fin hf]
  · intro v hv
    simp [safe_int, hv]
  · intro pre post co hco
    have : safe_int co.credits = 0 := by simp [safe_int, hco]
    simp [total_credits, this]
  · intro v hv
    simp [cleanMark, hv]

/-- Witness for C2 at concrete malformed inputs. -/
theorem c2_parse_or_zero_witness :
    safe_int_field (some "abc") = 0 ∧
    (adminEditCourse [some "abc"] Option.none).coursework_total =
      (adminEditCourse [] Option.none).coursework_total ∧
    safe_int (.str "12x") = 0 ∧ cleanMark .none = 0 :=
  ⟨c2_parse_or_zero.1 (some "abc") (by decide),
   c2_parse_or_zero.2.1 [] [] (some "abc") Option.none (by decide),
   c2_parse_or_zero.2.2.2.1 (.str "12x") (by decide),
   c2_parse_or_zero.2.2.2.2.2 .none (by decide)⟩

/-- C3: the overall average is the arithmetic mean of the course grades
rounded to two decimal places, and it is `0` (not an error) for the
empty sequence. -/
theorem c3_overall_average :
    compute_overall_average [] = 0 ∧
    ∀ grades : List ℚ, grades ≠ [] →
      compute_overall_average grades =
        round2 (grades.sum / (grades.length : ℚ)) := by
  refine ⟨rfl, ?_⟩
  intro g h
  rw [compute_overall_average, if_neg]
  simpa [List.length_eq_zero] using h

/-- Witness for C3: the spec's example `compute_overall_average([70, 80,
90]) = 80.0`. -/
theorem c3_overall_average_witness :
    compute_overall_average [70, 80, 90] = 80 := by
  have h := c3_overall_average.2 [70, 80, 90] (by simp)
  rw [h]
  norm_num [round2, roundHalfEven]

/-- C9: the remove-member branch of the `plan` route replaces the whole
plan row with one carrying only the updated members list, so
`committee_name`, `supervisor`, `discussion_date` and `notes` are reset
to `NULL` by every such request — including one whose target name is
absent from the list (the members list is then left as parsed). -/
theorem c9_remove_member_resets_row (sid : ℤ) (row : PlanRow)
    (mdel : Option (List Char)) :
    (planDeleteMember sid row mdel).committee_name = Option.none ∧
    (planDeleteMember sid row mdel).supervisor = Option.none ∧
    (planDeleteMember sid row mdel).discussion_date = Option.none ∧
    (planDeleteMember sid row mdel).notes = Option.none ∧
    ∀ m, mdel = some m → m ∉ parseMembers (row.members.getD []) →
      (planDeleteMember sid row mdel).members =
        some (serializeMembers (parseMembers (row.members.getD []))) := by
  refine ⟨rfl, rfl, rfl, rfl, ?_⟩
  intro m hm hnot
  subst hm
  simp [planDeleteMember, hnot]

/-- Witness for C9 at a concrete stored plan and an absent target name. -/
theorem c9_remove_member_resets_row_witness :
    (planDeleteMember 1 rowC9 (some "Zed".data)).committee_name = Option.none ∧
    (planDeleteMember 1 rowC9 (some "Zed".data)).members =
      some (serializeMembers (parseMembers (rowC9.members.getD []))) :=
  ⟨(c9_remove_member_resets_row 1 rowC9 (some "Zed".data)).1,
   (c9_remove_member_resets_row 1 rowC9 (some "Zed".data)).2.2.2.2
     "Zed".data rfl (by decide)⟩

/-- C10: the grade-save of `admin_student_edit` replaces the whole
admission row without the `graduation_date` column, so after every such
save the stored admission row of that student has `graduation_date =
NULL`, whatever was stored before. -/
theorem c10_grade_save_resets_graduation (tbl : List AdmissionRow) (sid : ℤ)
    (typ year notes : Option String) (avgStr : String) :
    lookupBy (·.student_id) (adminEditSaveAdmission tbl sid typ year notes avgStr)
        sid =
      some { student_id := sid, type := typ, year := year, avg := some avgStr,
             notes := notes, graduation_date := Option.none } := by
  simp [adminEditSaveAdmission, upsertBy, lookupBy]

/-- Rows kept by a key-filter never match the removed key. -/
theorem filter_key_filter_ne {α : Type} (key : α → ℤ) (k : ℤ) (l : List α) :
    ((l.filter fun r => key r ≠ k).filter fun r => key r = k) = [] := by
  induction l with
  | nil => rfl
  | cons a t ih => by_cases h : key a = k <;> simp [List.filter_cons, h, ih]

/-- C8: `admin_student_delete` removes the student row and all five
dependent rows for every choice of file-removal outcomes — a failing
portrait- or research-file deletion never blocks the row deletions. -/
theorem c8_delete_cascades (db : StudentsDB) (fs : List String)
    (removeOk : String → Bool) (sid : ℤ) :
    ((admin_student_delete db fs removeOk sid).1.students.filter
        fun r => r.id = sid) = [] ∧
    ((admin_student_delete db fs removeOk sid).1.admission.filter
        fun r => r.student_id = sid) = [] ∧
    ((admin_student_delete db fs removeOk sid).1.courses.filter
        fun r => r.student_id = sid) = [] ∧
    ((admin_student_delete db fs removeOk sid).1.research.filter
        fun r => r.student_id = sid) = [] ∧
    ((admin_student_delete db fs removeOk sid).1.competency.filter
        fun r => r.student_id = sid) = [] ∧
    ((admin_student_delete db fs removeOk sid).1.plan.filter
        fun r => r.student_id = sid) = [] := by
  refine ⟨?_, ?_, ?_, ?_, ?_, ?_⟩
  · exact filter_key_filter_ne (fun r => r.id) sid db.students
  · exact filter_key_filter_ne (fun r => r.student_id) sid db.admission
  · exact filter_key_filter_ne (fun r => r.student_id) sid db.courses
  · exact filter_key_filter_ne (fun r => r.student_id) sid db.research
  · exact filter_key_filter_ne (fun r => r.student_id) sid db.competency
  · exact filter_key_filter_ne (fun r => r.student_id) sid db.plan

/-- The print-loop fold computes, for each accumulator component, the
corresponding sum/count over the filtered course list. -/
theorem printFold_spec (courses : List CourseRow) (acc : PrintAcc) :
    (courses.foldl printStep acc).sum1 =
      acc.sum1 + ((courses.filter inFirstSem).map gradeOf).sum ∧
    (courses.foldl printStep acc).cnt1 =
      acc.cnt1 + (courses.filter inFirstSem).length ∧
    (courses.foldl printStep acc).sum2 =
      acc.sum2 + ((courses.filter inSecondSem).map gradeOf).sum ∧
    (courses.foldl printStep acc).cnt2 =
      acc.cnt2 + (courses.filter inSecondSem).length ∧
    (courses.foldl printStep acc).creds =
      acc.creds +
        ((courses.filter fun co => (pyFloat co.grade).isSome).map credOf).sum := by
  induction courses generalizing acc with
  | nil => simp
  | cons co t ih =>
    obtain ⟨ih1, ih2, ih3, ih4, ih5⟩ := ih (printStep acc co)
    simp only [List.foldl_cons, List.filter_cons]
    rcases hg : pyFloat co.grade with _ | gr
    · have hstep : printStep acc co = acc := by simp [printStep, hg]
      have h1 : inFirstSem co = false := by simp [inFirstSem, printIncluded, hg]
      have h2 : inSecondSem co = false := by simp [inSecondSem, printIncluded, hg]
      rw [hstep] at ih1 ih2 ih3 ih4 ih5
      simp [hstep, h1, h2, hg, ih1, ih2, ih3, ih4, ih5]
    · rcases hc : pyInt (pyOrZero co.credits) with _ | cr
      · have hstep : printStep acc co = acc := by simp [printStep, hg, hc]
        have h1 : inFirstSem co = false := by
          simp [inFirstSem, printIncluded, hg, hc]
        have h2 : inSecondSem co = false := by
          simp [inSecondSem, printIncluded, hg, hc]
        have hcr : credOf co = 0 := by simp [credOf, hc]
        rw [hstep] at ih1 ih2 ih3 ih4 ih5
        simp [hstep, h1, h2, hg, hcr, ih1, ih2, ih3, ih4, ih5]
      · have hinc : printIncluded co = true := by simp [printIncluded, hg, hc]
        have hgr : gradeOf co = gr := by simp [gradeOf, hg]
        have hcr : credOf co = cr := by simp [credOf, hc]
        by_cases ht1 : containsSub tok1 (co.semester.getD "").data
        · have hstep : printStep acc co =
              { acc with
                sum1 := acc.sum1 + gr
                cnt1 := acc.cnt1 + 1
                creds := acc.creds + cr } := by
            simp [printStep, hg, hc, ht1]
          have h1 : inFirstSem co = true := by simp [inFirstSem, hinc, ht1]
          have h2 : inSecondSem co = false := by simp [inSecondSem, ht1]
          rw [hstep] at ih1 ih2 ih3 ih4 ih5
          refine ⟨?_, ?_, ?_, ?_, ?_⟩ <;>
            simp [hstep, h1, h2, hg, hgr, hcr, ih1, ih2, ih3, ih4, ih5] <;>
            ring
        · by_cases ht2 : containsSub tok2 (co.semester.getD "").data
          · have hstep : printStep acc co =
                { acc with
                  sum2 := acc.sum2 + gr
                  cnt2 := acc.cnt2 + 1
                  creds := acc.creds + cr } := by
              simp [printStep, hg, hc, ht1, ht2]
            have h1 : inFirstSem co = false := by simp [inFirstSem, ht1]
            have h2 : inSecondSem co = true := by
              simp [inSecondSem, hinc, ht1, ht2]
            rw [hstep] at ih1 ih2 ih3 ih4 ih5
            refine ⟨?_, ?_, ?_, ?_, ?_⟩ <;>
              simp [hstep, h1, h2, hg, hgr, hcr, ih1, ih2, ih3, ih4, ih5] <;>
              ring
          · have hstep : printStep acc co =
                { acc with creds := acc.creds + cr } := by
              simp [printStep, hg, hc, ht1, ht2]
            have h1 : inFirstSem co = false := by simp [inFirstSem, ht1]
            have h2 : inSecondSem co = false := by simp [inSecondSem, ht1, ht2]
            rw [hstep] at ih1 ih2 ih3 ih4 ih5
            refine ⟨?_, ?_, ?_, ?_, ?_⟩ <;>
              simp [hstep, h1, h2, hg, hgr, hcr, ih1, ih2, ih3, ih4, ih5] <;>
              ring_nf

/-- C5 (corrected): in the courses listing the credit total is the sum of
the `safe_int`-coerced credit of every course; in the print view a course
contributes its credits only when its stored grade parses as a number
(a non-numeric credit then still contributes `0`), so a course whose
grade does not parse is omitted from the printed credit total. -/
theorem c5_credit_totals (courses : List CourseRow) :
    total_credits courses = (courses.map fun c => safe_int c.credits).sum ∧
    course_credits_sum courses =
      ((courses.filter fun co => (pyFloat co.grade).isSome).map credOf).sum := by
  refine ⟨rfl, ?_⟩
  have h := (printFold_spec courses ⟨0, 0, 0, 0, 0⟩).2.2.2.2
  simpa [course_credits_sum, printFold] using h

/-- C5 counterexample: a course with numeric credits `3` but a
non-numeric stored grade contributes nothing to the printed credit
total, so that total is not the sum of the coerced credit fields. -/
theorem c5_counterexample :
    course_credits_sum [cexCourse] = 0 ∧
    ([cexCourse].map fun c => safe_int c.credits).sum = 3 ∧
    course_credits_sum [cexCourse] ≠
      ([cexCourse].map fun c => safe_int c.credits).sum := by
  refine ⟨?_, by decide, ?_⟩
  · simp [course_credits_sum, printFold, printStep, cexCourse, pyFloat,
      parsePyFloat, parseFloatBody, trim, isPySpace]
  · simp [course_credits_sum, printFold, printStep, cexCourse, pyFloat,
      parsePyFloat, parseFloatBody, trim, isPySpace, safe_int, pyInt]

/-- C4: for every list of courses whose stored grades and credits parse
as numbers, the print view partitions the courses by a substring match of
the first-semester token resp. the second-semester token on the semester
label, averages the grade within each partition (rounded to two decimal
places), and renders the sentinel `'---'` for an empty partition — a
value distinct from a numeric `0` average. -/
theorem c4_semester_averages (courses : List CourseRow)
    (H : ∀ co ∈ courses, printIncluded co = true) :
    (avg_sem1 courses = .sentinel ↔ courses.filter firstSemMatch = []) ∧
    (courses.filter firstSemMatch ≠ [] →
      avg_sem1 courses = .val (round2
        (((courses.filter firstSemMatch).map gradeOf).sum /
          ((courses.filter firstSemMatch).length : ℚ)))) ∧
    (avg_sem2 courses = .sentinel ↔ courses.filter secondSemMatch = []) ∧
    (courses.filter secondSemMatch ≠ [] →
      avg_sem2 courses = .val (round2
        (((courses.filter secondSemMatch).map gradeOf).sum /
          ((courses.filter secondSemMatch).length : ℚ)))) ∧
    (AvgOut.sentinel ≠ AvgOut.val 0) := by
  have e1 : courses.filter inFirstSem = courses.filter firstSemMatch :=
    List.filter_congr fun co hco => by
      simp [inFirstSem, firstSemMatch, H co hco]
  have e2 : courses.filter inSecondSem = courses.filter secondSemMatch :=
    List.filter_congr fun co hco => by
      simp [inSecondSem, secondSemMatch, H co hco]
  obtain ⟨h1, h2, h3, h4, h5⟩ := printFold_spec courses ⟨0, 0, 0, 0, 0⟩
  rw [e1] at h1 h2
  rw [e2] at h3 h4
  have k1 : (printFold courses).cnt1 = (courses.filter firstSemMatch).length := by
    simpa [printFold] using h2
  have ks1 : (printFold courses).sum1 =
      ((courses.filter firstSemMatch).map gradeOf).sum := by
    simpa [printFold] using h1
  have k2 : (printFold courses).cnt2 = (courses.filter secondSemMatch).length := by
    simpa [printFold] using h4
  have ks2 : (printFold courses).sum2 =
      ((courses.filter secondSemMatch).map gradeOf).sum := by
    simpa [printFold] using h3
  refine ⟨?_, ?_, ?_, ?_, by simp⟩
  · simp only [avg_sem1, k1, ks1]
    by_cases hl : courses.filter firstSemMatch = []
    · simp [hl]
    · have hn : (courses.filter firstSemMatch).length ≠ 0 := by
        rw [ne_eq, List.length_eq_zero]; exact hl
      simp [hl, hn]
  · intro hne
    have hn : (courses.filter firstSemMatch).length ≠ 0 := by
      rw [ne_eq, List.length_eq_zero]; exact hne
    simp only [avg_sem1, k1, ks1]
    simp [hn]
  · simp only [avg_sem2, k2, ks2]
    by_cases hl : courses.filter secondSemMatch = []
    · simp [hl]
    · have hn : (courses.filter secondSemMatch).length ≠ 0 := by
        rw [ne_eq, List.length_eq_zero]; exact hl
      simp [hl, hn]
  · intro hne
    have hn : (courses.filter secondSemMatch).length ≠ 0 := by
      rw [ne_eq, List.length_eq_zero]; exact hne
    simp only [avg_sem2, k2, ks2]
    simp [hn]

/-- Witness for C4: the spec's example — a first-semester course with
grade 80 and a second-semester course with grade 60 yield averages 80
and 60, and the empty course list yields the sentinel in both cells. -/
theorem c4_semester_averages_witness :
    avg_sem1 [cw1Course, cw2Course] = .val 80 ∧
    avg_sem2 [cw1Course, cw2Course] = .val 60 ∧
    avg_sem1 [] = .sentinel ∧ AvgOut.sentinel ≠ AvgOut.val 0 := by
  have h := c4_semester_averages [cw1Course, cw2Course] (by decide)
  have h0 := c4_semester_averages [] (by simp)
  have f1 : List.filter firstSemMatch [cw1Course, cw2Course] = [cw1Course] := by
    decide
  have f2 : List.filter secondSemMatch [cw1Course, cw2Course] = [cw2Course] := by
    decide
  refine ⟨?_, ?_, ?_, h.2.2.2.2⟩
  · have e := h.2.1 (by rw [f1]; simp)
    rw [f1] at e
    rw [e]
    have : gradeOf cw1Course = 80 := by
      simp [gradeOf, cw1Course, pyFloat]
    simp only [List.map_cons, List.map_nil, List.sum_cons, List.sum_nil,
      List.length_cons, List.length_nil, this]
    norm_num [round2, roundHalfEven]
  · have e := h.2.2.2.1 (by rw [f2]; simp)
    rw [f2] at e
    rw [e]
    have : gradeOf cw2Course = 60 := by
      simp [gradeOf, cw2Course, pyFloat]
    simp only [List.map_cons, List.map_nil, List.sum_cons, List.sum_nil,
      List.length_cons, List.length_nil, this]
    norm_num [round2, roundHalfEven]
  · exact h0.1.mpr (by simp)

/-- `splitComma` always returns at least one segment. -/
theorem splitComma_ne_nil (l : List Char) : splitComma l ≠ [] := by
  induction l with
  | nil => simp [splitComma]
  | cons c t ih =>
    by_cases hc : c = ','
    · simp [splitComma, hc]
    · cases h : splitComma t with
      | nil => simp [splitComma, hc, h]
      | cons s ss => simp [splitComma, hc, h]

/-- A comma-free string is one single segment. -/
theorem splitComma_no_comma {l : List Char} (h : ',' ∉ l) :
    splitComma l = [l] := by
  induction l with
  | nil => rfl
  | cons c t ih =>
    have hc : ¬c = ',' := fun e => h (by simp [e])
    have ht : ',' ∉ t := fun m => h (List.mem_cons_of_mem c m)
    simp [splitComma, hc, ih ht]

/-- Splitting after a comma-free prefix peels that prefix off. -/
theorem splitComma_append {m : List Char} (t : List Char) (h : ',' ∉ m) :
    splitComma (m ++ ',' :: t) = m :: splitComma t := by
  induction m with
  | nil => simp [splitComma]
  | cons c m1 ih =>
    have hc : ¬c = ',' := fun e => h (by simp [e])
    have hm : ',' ∉ m1 := fun hmem => h (List.mem_cons_of_mem c hmem)
    simp [splitComma, hc, ih hm]

/-- Stripping absorbs a leading space. -/
theorem trim_space_cons (l : List Char) : trim (' ' :: l) = trim l := by
  have hsp : isPySpace ' ' = true := rfl
  simp [trim, List.dropWhile_cons, hsp]

/-- Serializing two or more members starts with the first member followed
by the separator. -/
theorem serializeMembers_cons₂ (m m2 : List Char) (ms : List (List Char)) :
    serializeMembers (m :: m2 :: ms) =
      m ++ ',' :: ' ' :: serializeMembers (m2 :: ms) := by
  simp [serializeMembers, List.intercalate, List.intersperse]

/-- Parse-after-serialize recovers any member list whose members are
nonempty, comma-free and stripped. -/
theorem parseMembers_serializeMembers (ms : List (List Char))
    (H : ∀ m ∈ ms, m ≠ [] ∧ ',' ∉ m ∧ trim m = m) :
    parseMembers (serializeMembers ms) = ms := by
  induction ms with
  | nil => rfl
  | cons m ms ih =>
    obtain ⟨hne, hnc, htr⟩ := H m (List.mem_cons_self m ms)
    have Hms : ∀ x ∈ ms, x ≠ [] ∧ ',' ∉ x ∧ trim x = x :=
      fun x hx => H x (List.mem_cons_of_mem m hx)
    cases ms with
    | nil =>
      have hser : serializeMembers [m] = m := by
        simp [serializeMembers, List.intercalate, List.intersperse]
      rw [hser, parseMembers, splitComma_no_comma hnc]
      simp [htr, hne]
    | cons m2 ms2 =>
      rw [serializeMembers_cons₂, parseMembers,
        splitComma_append (' ' :: serializeMembers (m2 :: ms2)) hnc]
      obtain ⟨s, ss, hss⟩ : ∃ s ss,
          splitComma (serializeMembers (m2 :: ms2)) = s :: ss := by
        cases h : splitComma (serializeMembers (m2 :: ms2)) with
        | nil => exact absurd h (splitComma_ne_nil _)
        | cons s ss => exact ⟨s, ss, rfl⟩
      have hsp : splitComma (' ' :: serializeMembers (m2 :: ms2)) =
          (' ' :: s) :: ss := by
        simp [splitComma, hss]
      rw [hsp]
      have htail := ih Hms
      rw [parseMembers, hss] at htail
      simp only [List.map_cons, List.filter_cons, trim_space_cons, htr]
      simp only [List.map_cons, List.filter_cons] at htail
      have hkeep : (!m.isEmpty) = true := by
        simpa [List.isEmpty_iff] using hne
      have htail2 :
          (if trim s = [] then List.filter (fun m => !m.isEmpty) (List.map trim ss)
            else trim s :: List.filter (fun m => !m.isEmpty) (List.map trim ss)) =
            m2 :: ms2 := by
        simpa using htail
      rw [hkeep]
      simp [htail2]

/-- C6 (corrected): parsing the empty string yields the empty list, and
serializing then parsing recovers the original committee-member list
whenever every member is nonempty, comma-free and carries no leading or
trailing whitespace. -/
theorem c6_members_roundtrip :
    parseMembers [] = [] ∧
    ∀ ms : List (List Char),
      (∀ m ∈ ms, m ≠ [] ∧ ',' ∉ m ∧ trim m = m) →
      parseMembers (serializeMembers ms) = ms :=
  ⟨rfl, parseMembers_serializeMembers⟩

/-- Witness for C6: the spec's example list `["Ali", "Omar"]`. -/
theorem c6_members_roundtrip_witness :
    parseMembers (serializeMembers ["Ali".data, "Omar".data]) =
      ["Ali".data, "Omar".data] :=
  c6_members_roundtrip.2 ["Ali".data, "Omar".data] (by decide)

/-- C6 counterexample: a member name containing a comma does not survive
the round trip — `["A,B"]` serializes to `"A,B"`, which parses back as
`["A", "B"]`. -/
theorem c6_members_roundtrip_counterexample :
    parseMembers (serializeMembers [['A', ',', 'B']]) = [['A'], ['B']] ∧
    parseMembers (serializeMembers [['A', ',', 'B']]) ≠ [['A', ',', 'B']] := by
  constructor <;> decide

/-- C7 (corrected): a submission of the Identity step whose (stripped)
external student code duplicates an existing student's code signals a
Conflict, leaves the students table — in particular the original
student's row — unchanged, and does not advance the wizard state (the
session's current-student key is untouched), in both the create path
(no current student) and the edit path (current student set). -/
theorem c7_duplicate_code_conflict :
    (∀ (db : List StudentRow) (form : InfoForm) (img : Option String),
      String.mk (trim form.full_name.data) ≠ "" →
      String.mk (trim form.student_id.data) ≠ "" →
      (∃ s ∈ db, s.student_id = String.mk (trim form.student_id.data)) →
      infoPost db Option.none form img = (.conflict, db, Option.none)) ∧
    (∀ (db : List StudentRow) (sid : ℤ) (form : InfoForm) (img : Option String),
      String.mk (trim form.full_name.data) ≠ "" →
      String.mk (trim form.student_id.data) ≠ "" →
      (∃ s ∈ db, s.id ≠ sid ∧
        s.student_id = String.mk (trim form.student_id.data)) →
      infoPost db (some sid) form img = (.conflict, db, some sid)) := by
  constructor
  · intro db form img h1 h2 hdup
    have hany : db.any
        (fun s => s.student_id = String.mk (trim form.student_id.data)) = true := by
      rw [List.any_eq_true]
      obtain ⟨s, hs, he⟩ := hdup
      exact ⟨s, hs, by simp [he]⟩
    simp [infoPost, h1, h2, hany]
  · intro db sid form img h1 h2 hdup
    have hany : db.any (fun s => s.id ≠ sid ∧
        s.student_id = String.mk (trim form.student_id.data)) = true := by
      rw [List.any_eq_true]
      obtain ⟨s, hs, hne, he⟩ := hdup
      exact ⟨s, hs, by simp [he, hne]⟩
    simp [infoPost, h1, h2, hany]
    exact hdup

/-- Witness for C7 at a concrete table and duplicate submission. -/
theorem c7_duplicate_code_conflict_witness :
    infoPost dbC7 Option.none formC7 Option.none =
      (.conflict, dbC7, Option.none) :=
  c7_duplicate_code_conflict.1 dbC7 formC7 Option.none
    (by decide) (by decide) (by decide)

/-- C7 counterexample: the claim's "preserves the previously entered
field values for re-display" fails — after the conflicting create
submission the session still has no current student, so the re-rendered
form data is empty and in particular does not carry the submitted name
`"Omar"`. -/
theorem c7_duplicate_code_conflict_counterexample :
    (infoPost dbC7 Option.none formC7 Option.none).1 = .conflict ∧
    infoGet dbC7 ((infoPost dbC7 Option.none formC7 Option.none).2.2) =
      Option.none ∧
    (infoGet dbC7 ((infoPost dbC7 Option.none formC7 Option.none).2.2)).map
        (·.full_name) ≠ some formC7.full_name := by
  refine ⟨?_, ?_, ?_⟩ <;> decide

end StudentPortal
